import Mathlib

/-!
Verification of the FLOAT-AI ETL pipeline
(`data_pipeline/build_database.py` and `data_pipeline/data_quality_checker.py`)
against its natural-language specification.

Modelling conventions (shallow embedding):
* A NetCDF value is either NaN or an exact number; we model measurement
  values with the inductive `FVal` (`nan` or `num (q : ℚ)`).  `np.isnan`
  becomes `FVal.isNaN`.
* An open dataset (`xr.open_dataset` result) is a list of named 1-D
  variables (`NCDataset`).  `ds.variables` membership is name lookup.
* Python exceptions are modelled with `Except`: every operation that can
  raise returns `Except Unit α` (the exception payload is irrelevant to
  control flow), and the source's `try/except ...: return 0` handlers
  become `match` on the `Except` value.
* A row dict is an association list `List (String × CellVal)` in the
  dict's insertion order; `row['k'] = v` appends at the end.
* The database is abstracted as the list of rows appended (the pipeline
  only ever truncates and appends).
-/

/-- Decidable equality for `Except`, so counterexamples and witnesses can
be checked by evaluation. -/
instance {ε α : Type} [DecidableEq ε] [DecidableEq α] : DecidableEq (Except ε α)
  | .error e, .error f =>
    if h : e = f then .isTrue (by rw [h]) else .isFalse (by simp [h])
  | .error _, .ok _ => .isFalse (by simp)
  | .ok _, .error _ => .isFalse (by simp)
  | .ok a, .ok b =>
    if h : a = b then .isTrue (by rw [h]) else .isFalse (by simp [h])

/-- A floating-point measurement value: either NaN or an exact number. -/
inductive FVal where
  | nan : FVal
  | num : ℚ → FVal
  deriving DecidableEq, Repr

/-- Model of `np.isnan` on a single value. -/
def FVal.isNaN : FVal → Bool
  | .nan => true
  | .num _ => false

/-- Model of `np.isnan(arr).all()`: true on an empty array (numpy's `all`
of an empty array is `True`). -/
def allNaN (xs : List FVal) : Bool :=
  xs.all FVal.isNaN

/-- A value stored in one cell of a row dict: a string (`platform_number`),
a measurement value, an integer (`float_id`), or Python `None`. -/
inductive CellVal where
  | str : String → CellVal
  | fv : FVal → CellVal
  | intv : ℤ → CellVal
  | pynone : CellVal
  deriving DecidableEq, Repr

/-- An open NetCDF dataset: named 1-D variables with their data arrays. -/
structure NCDataset where
  vars : List (String × List FVal)
  deriving DecidableEq, Repr

/-- `name in ds.variables`. -/
def NCDataset.hasVar (ds : NCDataset) (name : String) : Bool :=
  ds.vars.any (fun p => p.1 == name)

/-- `ds[name].values` when the variable is present (first binding wins,
as in a mapping). -/
def NCDataset.getVar? (ds : NCDataset) (name : String) : Option (List FVal) :=
  (ds.vars.find? (fun p => p.1 == name)).map Prod.snd

/-- `ds[name]` as a raising access: a missing variable is a `KeyError`. -/
def NCDataset.getVar (ds : NCDataset) (name : String) : Except Unit (List FVal) :=
  match ds.getVar? name with
  | some d => .ok d
  | none => .error ()

/-- `arr[i]` on a numpy 1-D array: out-of-range is an `IndexError`. -/
def npIndex (xs : List FVal) (i : Nat) : Except Unit FVal :=
  match xs.get? i with
  | some v => .ok v
  | none => .error ()

/-- The alias table of `build_database.py` (`potential_names`), in the
source's dict insertion order. -/
def potential_names : List (String × List String) :=
  [("profile_date", ["juld", "JULD"]),
   ("latitude", ["latitude", "LATITUDE"]),
   ("longitude", ["longitude", "LONGITUDE"]),
   ("pressure", ["pres_adjusted", "PRES_ADJUSTED"]),
   ("temperature", ["temp_adjusted", "TEMP_ADJUSTED"]),
   ("salinity", ["psal_adjusted", "PSAL_ADJUSTED"])]

/-- The inner alias loop: the first alias present in the file, if any
(`for ugly_name in ugly_names: if ugly_name in ds.variables: ...; break`). -/
def resolveAliases (aliases : List String) (ds : NCDataset) : Option String :=
  aliases.find? (fun a => ds.hasVar a)

/-- The `column_map` built by the smart-attribute-selection loop: one
`(ugly_name, clean_name)` entry per canonical field whose alias list has a
present member. -/
def buildColumnMap (ds : NCDataset) : List (String × String) :=
  potential_names.foldl
    (fun acc p =>
      match resolveAliases p.2 ds with
      | some ugly => acc ++ [(ugly, p.1)]
      | none => acc)
    []

/-- Python `s.startswith(pre)`. -/
def pyStartsWith (s pre : String) : Bool :=
  pre.toList.isPrefixOf s.toList

/-- Python `s.endswith(suf)`. -/
def pyEndsWith (s suf : String) : Bool :=
  suf.toList.isSuffixOf s.toList

/-- Python's digit test for `int()` (ASCII `0`–`9`). -/
def isPyDigit (c : Char) : Bool :=
  48 ≤ c.toNat && c.toNat ≤ 57

/-- `os.path.basename(p).split('_')[0]`: the segment of the base filename
before the first underscore.  (We pass base filenames directly, so no
directory stripping is modelled.)  Python's `split` always returns a
non-empty list, with element 0 the text before the first separator. -/
def firstSegment (filename : String) : String :=
  String.mk (filename.toList.takeWhile (fun c => !(c == '_')))

/-- `.replace('D', '').replace('R', '')`: removes every occurrence of the
characters `D` and `R`. -/
def stripDR (s : String) : String :=
  String.mk (s.toList.filter (fun c => !(c == 'D' || c == 'R')))

/-- Python `int(s)`: succeeds on an optional sign followed by one or more
digits (surrounding whitespace, underscores and other bases are not
exercised by the filenames this pipeline sees), raises `ValueError`
otherwise. -/
def pyInt? (s : String) : Option ℤ :=
  let (sign, digits) :=
    match s.toList with
    | '-' :: rest => ((-1 : ℤ), rest)
    | '+' :: rest => ((1 : ℤ), rest)
    | cs => ((1 : ℤ), cs)
  if !digits.isEmpty && digits.all isPyDigit then
    some (sign * (digits.foldl (fun n c => 10 * n + (c.toNat - 48)) 0 : ℕ))
  else
    none

/-- `int(os.path.basename(file_path).split('_')[0].replace('D', '').replace('R', ''))`
from line 123 of `build_database.py`, as a fallible parse. -/
def floatIdOfFilename (filename : String) : Option ℤ :=
  pyInt? (stripDR (firstSegment filename))

/-- Rendering of `str(ds['PLATFORM_NUMBER'].values)` — only the fact that
a string is produced matters to any claim, not its exact shape; we render
the array contents. -/
def pyStrArray (d : List FVal) : String :=
  String.intercalate " " (d.map (fun v => reprStr v))

/-- Lines 83–90: extract `platform_number` from the dataset when present
(uppercase first, then lowercase), else fall back to the filename. -/
def platformNumberOf (filename : String) (ds : NCDataset) : String :=
  match ds.getVar? "PLATFORM_NUMBER" with
  | some d => pyStrArray d
  | none =>
    match ds.getVar? "platform_number" with
    | some d => pyStrArray d
    | none => stripDR (firstSegment filename)

/-- Lines 107–110: `ds[name].values[i] if name in ds.variables else None`.
A present but too-short variable raises `IndexError`. -/
def condIndex (ds : NCDataset) (name : String) (i : Nat) : Except Unit CellVal :=
  match ds.getVar? name with
  | some d =>
    match npIndex d i with
    | .ok v => .ok (.fv v)
    | .error e => .error e
  | none => .ok .pynone

/-- One iteration of the extraction loop (lines 97–113) at index `i`:
reads temperature and salinity positionally, drops the row (returns
`none`) when either is NaN, otherwise builds the row dict in the source's
key order. -/
def rowAt (pn : String) (ds : NCDataset) (temps psals : List FVal) (i : Nat) :
    Except Unit (Option (List (String × CellVal))) :=
  match npIndex temps i with
  | .error e => .error e
  | .ok temp =>
    match npIndex psals i with
    | .error e => .error e
    | .ok psal =>
      if temp.isNaN || psal.isNaN then
        .ok none
      else
        match condIndex ds "JULD" i, condIndex ds "LATITUDE" i,
              condIndex ds "LONGITUDE" i, condIndex ds "PRES_ADJUSTED" i with
        | .ok juld, .ok lat, .ok lon, .ok prs =>
          .ok (some [("platform_number", .str pn),
                     ("profile_date", juld),
                     ("latitude", lat),
                     ("longitude", lon),
                     ("pressure", prs),
                     ("temperature", .fv temp),
                     ("salinity", .fv psal)])
        | _, _, _, _ => .error ()

/-- The extraction loop over `range(len(ds['PRES_ADJUSTED']))`, collecting
non-dropped rows in order; the first raising iteration aborts the whole
loop (and, in the source, the inner `except` then discards everything). -/
def extractLoop (pn : String) (ds : NCDataset) (temps psals : List FVal) :
    (n : Nat) → Except Unit (List (List (String × CellVal)))
  | 0 => .ok []
  | n + 1 =>
    match extractLoop pn ds temps psals n with
    | .error e => .error e
    | .ok init =>
      match rowAt pn ds temps psals n with
      | .error e => .error e
      | .ok (some row) => .ok (init ++ [row])
      | .ok none => .ok init

/-- The inner `try` body (lines 79–113): platform number, the all-NaN
file-level skip (which `return 0`s, modelled as an empty row list), then
the positional extraction loop.  Note the hard-coded uppercase variable
names — the reconciled `column_map` is *not* consulted here. -/
def innerExtract (filename : String) (ds : NCDataset) :
    Except Unit (List (List (String × CellVal))) :=
  let pn := platformNumberOf filename ds
  match ds.getVar "TEMP_ADJUSTED" with
  | .error e => .error e
  | .ok temps =>
    match ds.getVar "PSAL_ADJUSTED" with
    | .error e => .error e
    | .ok psals =>
      if allNaN temps || allNaN psals then
        .ok []
      else
        match ds.getVar "PRES_ADJUSTED" with
        | .error e => .error e
        | .ok pres => extractLoop pn ds temps psals pres.length

/-- The body of `process_profile_file` under the outer `try` (lines
62–131), with every internal `return 0` path yielding the empty row list
and every uncaught exception a `.error`.  Returns the rows appended to
`argo_profiles`. -/
def processBody (filename : String) (ds : NCDataset) :
    Except Unit (List (List (String × CellVal))) :=
  if (buildColumnMap ds).length ≠ 6 then
    .error ()  -- `raise KeyError("Could not find all required variables.")`
  else
    match innerExtract filename ds with
    | .error _ => .ok []  -- inner `except`: log and `return 0`
    | .ok data =>
      if data.isEmpty then
        .ok []  -- `if not data_to_insert: ... return 0`
      else
        match floatIdOfFilename filename with
        | none => .error ()  -- `int(...)` raises `ValueError`
        | some fid =>
          .ok (data.map (fun row => row ++ [("float_id", CellVal.intv fid)]))

/-- `process_profile_file` (lines 59–137): the open result plus the body,
with the outer `except` handlers mapping every exception to zero rows.
The function's return value in the source is the row count; we return the
row list (the count is its length). -/
def process_profile_file (filename : String) (openRes : Except Unit NCDataset) :
    List (List (String × CellVal)) :=
  match openRes with
  | .error _ => []
  | .ok ds =>
    match processBody filename ds with
    | .ok rows => rows
    | .error _ => []

/-- File discovery (lines 47–51): keep directory entries ending in `.nc`
and starting with `D` or `R`.  We model the walk as a flat list of base
filenames. -/
def discoverFiles (entries : List String) : List String :=
  entries.filter (fun f => pyEndsWith f ".nc" && (pyStartsWith f "D" || pyStartsWith f "R"))

/-- Observable actions of one script run, for sequencing claims. -/
inductive PipelineEvent where
  | truncate : PipelineEvent
  | exitNoFiles : PipelineEvent
  | insert : List (List (String × CellVal)) → PipelineEvent
  deriving DecidableEq, Repr

/-- The module-level control flow of `build_database.py` plus `main()`:
connect (not modelled), truncate, discover, exit if no files, else process
each file in order.  `contents` gives each filename's open result. -/
def scriptTrace (entries : List String)
    (contents : String → Except Unit NCDataset) : List PipelineEvent :=
  PipelineEvent.truncate ::
    (let files := discoverFiles entries
     if files.isEmpty then
       [PipelineEvent.exitNoFiles]
     else
       files.map (fun f => PipelineEvent.insert (process_profile_file f (contents f))))

/-- All rows loaded by one run, in load order (concatenation of the
per-file batches of `main`'s loop). -/
def pipelineRows (entries : List String)
    (contents : String → Except Unit NCDataset) : List (List (String × CellVal)) :=
  (discoverFiles entries).flatMap (fun f => process_profile_file f (contents f))

/-- `main`'s `total_rows_loaded` accumulator (lines 141–147). -/
def mainTotal (files : List String)
    (contents : String → Except Unit NCDataset) : Nat :=
  files.foldl (fun acc f => acc + (process_profile_file f (contents f)).length) 0

/-- One full pipeline run against a table state: the truncate (when it
succeeds; its failure is caught and the run proceeds on the old contents,
lines 37–43) followed by the per-file appends. -/
def pipelineRun (truncOk : Bool) (entries : List String)
    (contents : String → Except Unit NCDataset)
    (table : List (List (String × CellVal))) : List (List (String × CellVal)) :=
  let table1 := if truncOk then [] else table
  if (discoverFiles entries).isEmpty then
    table1  -- `exit()` before any insert
  else
    table1 ++ pipelineRows entries contents

/-!
## Embedding of `data_pipeline/data_quality_checker.py`
-/

/-- A pandas dataframe as produced by `dataset.to_dataframe().reset_index()`:
a row count and named columns (every real frame's columns share `nrows`
as their length). -/
structure ArgoFrame where
  nrows : Nat
  cols : List (String × List FVal)
  deriving DecidableEq, Repr

/-- `name in argo_df.columns`. -/
def ArgoFrame.hasCol (df : ArgoFrame) (name : String) : Bool :=
  df.cols.any (fun p => p.1 == name)

/-- `argo_df[name]`'s data, when the column is present. -/
def ArgoFrame.getCol? (df : ArgoFrame) (name : String) : Option (List FVal) :=
  (df.cols.find? (fun p => p.1 == name)).map Prod.snd

/-- The quality checker's alias table (`potential_names`, lines 41–45), in
the source's dict insertion order — only the three core measurement
fields. -/
def qc_potential_names : List (String × List String) :=
  [("temperature", ["temp_adjusted", "TEMP_ADJUSTED"]),
   ("salinity", ["psal_adjusted", "PSAL_ADJUSTED"]),
   ("pressure", ["pres_adjusted", "PRES_ADJUSTED"])]

/-- The checker's inner alias loop over the frame's columns. -/
def qcResolveAliases (aliases : List String) (df : ArgoFrame) : Option String :=
  aliases.find? (fun a => df.hasCol a)

/-- The checker's `column_map` (lines 48–52). -/
def qcColumnMap (df : ArgoFrame) : List (String × String) :=
  qc_potential_names.foldl
    (fun acc p =>
      match qcResolveAliases p.2 df with
      | some ugly => acc ++ [(ugly, p.1)]
      | none => acc)
    []

/-- `final_df[clean]` after `final_df.rename(columns=column_map)`: the
data of the source column that `column_map` sends to `clean`; a missing
binding is a `KeyError` (caught by the per-file handler). -/
def resolvedData (df : ArgoFrame) (cmap : List (String × String)) (clean : String) :
    Except String (List FVal) :=
  match cmap.find? (fun p => p.2 == clean) with
  | some p =>
    match df.getCol? p.1 with
    | some d => .ok d
    | none => .error "KeyError"
  | none => .error "KeyError"

/-- The values of a series with nulls removed (`skipna=True`). -/
def nonNullVals (xs : List FVal) : List ℚ :=
  xs.filterMap (fun v => match v with | .nan => none | .num q => some q)

/-- The sample variance (`ddof=1`, pandas' default) of a series, skipping
nulls; `none` models the NaN pandas returns when fewer than two non-null
values remain. -/
def sampleVar? (xs : List FVal) : Option ℚ :=
  let v := nonNullVals xs
  if v.length < 2 then none
  else
    let n : ℚ := v.length
    let mean := v.sum / n
    some ((v.map (fun x => (x - mean) ^ 2)).sum / (n - 1))

/-- `series.std() == 0`: over exact values, the standard deviation is zero
exactly when the variance is zero (`sqrt 0 = 0`, `sqrt` positive
otherwise), and pandas' NaN (fewer than two non-null values) compares
unequal to `0`. -/
def stdIsZero (xs : List FVal) : Bool :=
  sampleVar? xs == some 0

/-- Flag message of line 62. -/
def emptyReason : String := "File is empty; contains no data rows."

/-- Flag message of line 67. -/
def allNullReason : String := "All temperature and salinity values are null (NaN)."

/-- Flag message of line 72. -/
def zeroStdReason : String := "All measurement values are identical (e.g., all zeroes)."

/-- Flag message of line 76 (`f"Failed to process or read. Error: {e}"`). -/
def readErrorReason (e : String) : String :=
  "Failed to process or read. Error: " ++ e

/-- Message of the `ValueError` raised at line 55. -/
def missingCoreVarsMsg : String :=
  "File is missing one or more core measurement variables (temp, psal, pres)."

/-- The checker's per-file `try` body (lines 36–73): resolve the three
core fields, then run the three data-quality checks in order, each
`continue`-ing past the rest; `.error` means an exception reaches the
per-file handler, `.ok (some r)` a flag with reason `r`, `.ok none` a
clean file. -/
def qcCheckBody (df : ArgoFrame) : Except String (Option String) :=
  if (qcColumnMap df).length ≠ 3 then
    .error missingCoreVarsMsg
  else
    let cmap := qcColumnMap df
    if df.nrows == 0 then
      .ok (some emptyReason)
    else
      match resolvedData df cmap "temperature" with
      | .error e => .error e
      | .ok temps =>
        match resolvedData df cmap "salinity" with
        | .error e => .error e
        | .ok sals =>
          if allNaN temps && allNaN sals then
            .ok (some allNullReason)
          else
            match resolvedData df cmap "pressure" with
            | .error e => .error e
            | .ok pres =>
              if stdIsZero temps && stdIsZero pres then
                .ok (some zeroStdReason)
              else
                .ok none

/-- One iteration of the checker's per-file loop (lines 32–76): open the
file, run the body, with the handler turning any exception into a
`(filename, "Failed to process or read. ...")` flag. -/
def qcCheckFile (filename : String) (openRes : Except String ArgoFrame) :
    Option (String × String) :=
  match openRes with
  | .error e => some (filename, readErrorReason e)
  | .ok df =>
    match qcCheckBody df with
    | .error e => some (filename, readErrorReason e)
    | .ok none => none
    | .ok (some reason) => some (filename, reason)

/-- The checker's whole run: `flagged_files` after the loop, in file
order. -/
def qcRun (entries : List String) (contents : String → Except String ArgoFrame) :
    List (String × String) :=
  (discoverFiles entries).filterMap (fun f => qcCheckFile f (contents f))

/-!
## Spec-side definitions (for refinement comparisons only)
-/

/-- The seven columns the spec's §6 declares for `argo_profiles`. -/
def specSevenColumns : List String :=
  ["float_id", "profile_date", "latitude", "longitude",
   "pressure", "temperature", "salinity"]

/-- Modelled from the spec (§4.3): the float identifier "derived from the
filename by stripping the leading mode character (`D`/`R`) and any
trailing segment markers, then parsing the remaining numeric prefix as an
integer". -/
def specFloatId (filename : String) : Option ℤ :=
  let seg := firstSegment filename
  let core :=
    if pyStartsWith seg "D" || pyStartsWith seg "R" then
      String.mk (seg.toList.drop 1)
    else seg
  pyInt? core

/-- Modelled from the spec (§4.6): flag a file iff it could not be
read/resolved at all, OR the extracted frame has zero rows, OR all
temperature and all salinity values are null, OR the sample standard
deviations of temperature and of pressure are both exactly zero. -/
def specQcShouldFlag (openRes : Except String ArgoFrame) : Bool :=
  match openRes with
  | .error _ => true
  | .ok df =>
    let cmap := qcColumnMap df
    if cmap.length ≠ 3 then true
    else
      match resolvedData df cmap "temperature", resolvedData df cmap "salinity",
            resolvedData df cmap "pressure" with
      | .ok temps, .ok sals, .ok pres =>
        df.nrows == 0 || (allNaN temps && allNaN sals)
          || (stdIsZero temps && stdIsZero pres)
      | _, _, _ => true

/-!
## Concrete instances used by counterexamples and witnesses
-/

/-- A one-level profile file whose six variables use the uppercase
adjusted spellings (the shape the extraction loop expects). -/
def dsAllUpper : NCDataset :=
  ⟨[("JULD", [FVal.num 1]), ("LATITUDE", [FVal.num 2]), ("LONGITUDE", [FVal.num 3]),
    ("PRES_ADJUSTED", [FVal.num 4]), ("TEMP_ADJUSTED", [FVal.num 5]),
    ("PSAL_ADJUSTED", [FVal.num 6])]⟩

/-- The same file with every variable in the lowercase adjusted
spelling. -/
def dsAllLower : NCDataset :=
  ⟨[("juld", [FVal.num 1]), ("latitude", [FVal.num 2]), ("longitude", [FVal.num 3]),
    ("pres_adjusted", [FVal.num 4]), ("temp_adjusted", [FVal.num 5]),
    ("psal_adjusted", [FVal.num 6])]⟩

/-- A file carrying the raw (non-adjusted) measurement variable names. -/
def dsRawNames : NCDataset :=
  ⟨[("JULD", [FVal.num 1]), ("LATITUDE", [FVal.num 2]), ("LONGITUDE", [FVal.num 3]),
    ("PRES", [FVal.num 4]), ("TEMP", [FVal.num 5]), ("PSAL", [FVal.num 6])]⟩

/-- A file whose date variable uses a mixed-case spelling. -/
def dsMixedCase : NCDataset :=
  ⟨[("Juld", [FVal.num 1])]⟩

/-- The row `process_profile_file` produces for `dsAllUpper` under the
filename `D123_0.nc`. -/
def rowUpper123 : List (String × CellVal) :=
  [("platform_number", .str "123"), ("profile_date", .fv (FVal.num 1)),
   ("latitude", .fv (FVal.num 2)), ("longitude", .fv (FVal.num 3)),
   ("pressure", .fv (FVal.num 4)), ("temperature", .fv (FVal.num 5)),
   ("salinity", .fv (FVal.num 6)), ("float_id", .intv 123)]

/-- The row `process_profile_file` produces for `dsAllUpper` under the
filename `D1R2_0.nc`. -/
def rowUpper12 : List (String × CellVal) :=
  [("platform_number", .str "12"), ("profile_date", .fv (FVal.num 1)),
   ("latitude", .fv (FVal.num 2)), ("longitude", .fv (FVal.num 3)),
   ("pressure", .fv (FVal.num 4)), ("temperature", .fv (FVal.num 5)),
   ("salinity", .fv (FVal.num 6)), ("float_id", .intv 12)]

/-- A quality-checker frame with the three core columns present but zero
rows (it also satisfies the all-null condition vacuously). -/
def qcFrameEmpty : ArgoFrame :=
  ⟨0, [("temp_adjusted", []), ("psal_adjusted", []), ("pres_adjusted", [])]⟩

/-- A quality-checker frame with constant temperature and pressure
columns (degenerate data). -/
def qcFrameConst : ArgoFrame :=
  ⟨2, [("temp_adjusted", [FVal.num 1, FVal.num 1]),
       ("psal_adjusted", [FVal.num 2, FVal.num 3]),
       ("pres_adjusted", [FVal.num 5, FVal.num 5])]⟩

/-!
## Supporting lemmas
-/

/-- Inversion for one loop iteration: a produced row has the source's
exact dict shape and non-NaN temperature and salinity. -/
lemma rowAt_ok_some {pn : String} {ds : NCDataset} {temps psals : List FVal} {i : Nat}
    {row : List (String × CellVal)}
    (h : rowAt pn ds temps psals i = .ok (some row)) :
    ∃ temp psal juld lat lon prs,
      npIndex temps i = .ok temp ∧ npIndex psals i = .ok psal ∧
      temp.isNaN = false ∧ psal.isNaN = false ∧
      row = [("platform_number", .str pn), ("profile_date", juld), ("latitude", lat),
             ("longitude", lon), ("pressure", prs),
             ("temperature", .fv temp), ("salinity", .fv psal)] := by
  unfold rowAt at h
  split at h
  · exact absurd h (by simp)
  rename_i temp htemp
  split at h
  · exact absurd h (by simp)
  rename_i psal hpsal
  split at h
  · exact absurd h (by simp)
  rename_i hnan
  split at h
  · rename_i juld lat lon prs hj hl hlo hp
    rw [Except.ok.injEq, Option.some.injEq] at h
    refine ⟨temp, psal, juld, lat, lon, prs, htemp, hpsal, ?_, ?_, h.symm⟩
    · cases hb : temp.isNaN
      · rfl
      · rw [hb] at hnan; simp at hnan
    · cases hb : psal.isNaN
      · rfl
      · rw [hb] at hnan; simp at hnan
  · exact absurd h (by simp)

/-- Every row the extraction loop collects comes from some index below
the loop bound. -/
lemma extractLoop_mem {pn : String} {ds : NCDataset} {temps psals : List FVal} :
    ∀ {n : Nat} {rows : List (List (String × CellVal))} {row : List (String × CellVal)},
      extractLoop pn ds temps psals n = .ok rows → row ∈ rows →
      ∃ i, i < n ∧ rowAt pn ds temps psals i = .ok (some row) := by
  intro n
  induction n with
  | zero =>
    intro rows row h hm
    unfold extractLoop at h
    rw [Except.ok.injEq] at h
    subst h
    simp at hm
  | succ n ih =>
    intro rows row h hm
    unfold extractLoop at h
    split at h
    · exact absurd h (by simp)
    rename_i init hinit
    split at h
    · exact absurd h (by simp)
    · rename_i row' hrow
      rw [Except.ok.injEq] at h
      subst h
      rcases List.mem_append.mp hm with hmem | hmem
      · obtain ⟨i, hi, hr⟩ := ih hinit hmem
        exact ⟨i, Nat.lt_succ_of_lt hi, hr⟩
      · rw [List.mem_singleton] at hmem
        subst hmem
        exact ⟨n, Nat.lt_succ_self n, hrow⟩
    · rename_i hrow
      rw [Except.ok.injEq] at h
      subst h
      obtain ⟨i, hi, hr⟩ := ih hinit hm
      exact ⟨i, Nat.lt_succ_of_lt hi, hr⟩

/-- Inversion for `process_profile_file`: every persisted row has the
eight-key dict shape, a float id parsed from the filename, and non-NaN
temperature and salinity. -/
lemma mem_process_shape {f : String} {o : Except Unit NCDataset}
    {row : List (String × CellVal)}
    (h : row ∈ process_profile_file f o) :
    ∃ fid pn temp psal juld lat lon prs,
      floatIdOfFilename f = some fid ∧ temp.isNaN = false ∧ psal.isNaN = false ∧
      row = [("platform_number", .str pn), ("profile_date", juld), ("latitude", lat),
             ("longitude", lon), ("pressure", prs), ("temperature", .fv temp),
             ("salinity", .fv psal), ("float_id", .intv fid)] := by
  unfold process_profile_file at h
  split at h
  · simp at h
  rename_i ds
  split at h
  swap
  · simp at h
  rename_i rows hbody
  unfold processBody at hbody
  split at hbody
  · exact absurd hbody (by simp)
  split at hbody
  · rw [Except.ok.injEq] at hbody; subst hbody; simp at h
  rename_i data hinner
  split at hbody
  · rw [Except.ok.injEq] at hbody; subst hbody; simp at h
  rename_i hne
  split at hbody
  · exact absurd hbody (by simp)
  rename_i fid hfid
  rw [Except.ok.injEq] at hbody
  subst hbody
  rw [List.mem_map] at h
  obtain ⟨r, hr, hrow⟩ := h
  unfold innerExtract at hinner
  split at hinner
  · exact absurd hinner (by simp)
  rename_i temps htemps
  split at hinner
  · exact absurd hinner (by simp)
  rename_i psals hpsals
  split at hinner
  · rw [Except.ok.injEq] at hinner; subst hinner; simp at hr
  split at hinner
  · exact absurd hinner (by simp)
  rename_i pres hpres
  obtain ⟨i, _, hrowAt⟩ := extractLoop_mem hinner hr
  obtain ⟨temp, psal, juld, lat, lon, prs, _, _, htn, hpn, hshape⟩ := rowAt_ok_some hrowAt
  subst hshape
  subst hrow
  exact ⟨fid, platformNumberOf f ds, temp, psal, juld, lat, lon, prs, hfid, htn, hpn, rfl⟩

/-- A file whose name fails the `int()` parse reaches the `ValueError`
(or an earlier zero-row path) and contributes no rows. -/
lemma processBody_ok_of_no_floatId {f : String} {ds : NCDataset}
    {rows : List (List (String × CellVal))}
    (hfid : floatIdOfFilename f = none) (hb : processBody f ds = .ok rows) :
    rows = [] := by
  unfold processBody at hb
  split at hb
  · exact absurd hb (by simp)
  split at hb
  · rw [Except.ok.injEq] at hb; exact hb.symm
  rename_i data hinner
  split at hb
  · rw [Except.ok.injEq] at hb; exact hb.symm
  split at hb
  · exact absurd hb (by simp)
  rename_i fid hfid2
  rw [hfid] at hfid2
  exact absurd hfid2 (by simp)

/-- `main`'s row-count fold is the initial value plus the sum of the
per-file counts. -/
lemma foldl_count_eq_sum (contents : String → Except Unit NCDataset) :
    ∀ (l : List String) (a : Nat),
      l.foldl (fun acc f => acc + (process_profile_file f (contents f)).length) a
        = a + (l.map (fun f => (process_profile_file f (contents f)).length)).sum := by
  intro l
  induction l with
  | nil => intro a; simp
  | cons x xs ih =>
    intro a
    simp only [List.foldl_cons, List.map_cons, List.sum_cons]
    rw [ih]
    omega

/-- `mainTotal` as a sum of per-file row counts. -/
lemma mainTotal_eq_sum (l : List String) (contents : String → Except Unit NCDataset) :
    mainTotal l contents
      = (l.map (fun f => (process_profile_file f (contents f)).length)).sum := by
  unfold mainTotal
  rw [foldl_count_eq_sum]
  omega

/-!
## Claim theorems
-/

/-- C1, counterexample: the batch insert writes an eighth column,
`platform_number`, beyond the seven the claim allows. -/
theorem c1_batch_insert_extra_platform_number_column :
    process_profile_file "D123_0.nc" (.ok dsAllUpper) = [rowUpper123] ∧
    "platform_number" ∈ rowUpper123.map Prod.fst ∧
    "platform_number" ∉ specSevenColumns := by decide

/-- C1, amended: every row the pipeline appends contains exactly the
eight columns `platform_number`, `profile_date`, `latitude`, `longitude`,
`pressure`, `temperature`, `salinity`, `float_id`, and no others. -/
theorem c1_rows_have_exactly_eight_columns :
    ∀ (f : String) (o : Except Unit NCDataset) (row : List (String × CellVal)),
      row ∈ process_profile_file f o →
      row.map Prod.fst =
        ["platform_number", "profile_date", "latitude", "longitude",
         "pressure", "temperature", "salinity", "float_id"] := by
  intro f o row h
  obtain ⟨fid, pn, temp, psal, juld, lat, lon, prs, _, _, _, hshape⟩ := mem_process_shape h
  subst hshape
  simp

theorem c1_rows_have_exactly_eight_columns_witness :
    rowUpper123 ∈ process_profile_file "D123_0.nc" (.ok dsAllUpper) ∧
    rowUpper123.map Prod.fst =
      ["platform_number", "profile_date", "latitude", "longitude",
       "pressure", "temperature", "salinity", "float_id"] :=
  ⟨by decide,
   c1_rows_have_exactly_eight_columns "D123_0.nc" (.ok dsAllUpper) rowUpper123 (by decide)⟩

/-- C2, counterexample: with zero matching files the truncate has already
run — it is the first action of the script, before discovery. -/
theorem c2_truncate_executed_despite_zero_files :
    discoverFiles ["readme.txt"] = [] ∧
    PipelineEvent.truncate ∈ scriptTrace ["readme.txt"] (fun _ => .error ()) := by decide

/-- C2, amended: with zero matching files the run reports and exits with
no insert performed, but only after the truncate, which precedes
discovery. -/
theorem c2_zero_files_exit_after_truncate :
    ∀ (entries : List String) (contents : String → Except Unit NCDataset),
      discoverFiles entries = [] →
      scriptTrace entries contents = [PipelineEvent.truncate, PipelineEvent.exitNoFiles] := by
  intro entries contents h
  simp [scriptTrace, h]

theorem c2_zero_files_exit_after_truncate_witness :
    scriptTrace ["readme.txt"] (fun _ => .error ())
      = [PipelineEvent.truncate, PipelineEvent.exitNoFiles] :=
  c2_zero_files_exit_after_truncate ["readme.txt"] (fun _ => .error ()) (by decide)

/-- C3, counterexample: raw (non-adjusted) variable names and mixed-case
spellings are not resolved — a file with raw `PRES`/`TEMP`/`PSAL` fails
reconciliation and is rejected. -/
theorem c3_raw_and_mixed_case_variants_rejected :
    resolveAliases ["pres_adjusted", "PRES_ADJUSTED"] dsRawNames = none ∧
    (buildColumnMap dsRawNames).length = 3 ∧
    process_profile_file "D9_0.nc" (.ok dsRawNames) = [] ∧
    resolveAliases ["juld", "JULD"] dsMixedCase = none := by decide

/-- C3, amended: each canonical field resolves by exact match against a
fixed two-spelling alias list — the lowercase form, preferred, then the
uppercase form — and for the three measurement fields only the adjusted
spellings are listed. -/
theorem c3_alias_resolution_exact_two_spellings :
    (∀ (ds : NCDataset) (low high : String),
      resolveAliases [low, high] ds =
        if ds.hasVar low then some low
        else if ds.hasVar high then some high
        else none) ∧
    potential_names.map Prod.snd =
      [["juld", "JULD"], ["latitude", "LATITUDE"], ["longitude", "LONGITUDE"],
       ["pres_adjusted", "PRES_ADJUSTED"], ["temp_adjusted", "TEMP_ADJUSTED"],
       ["psal_adjusted", "PSAL_ADJUSTED"]] := by
  refine ⟨?_, by decide⟩
  intro ds low high
  cases h1 : ds.hasVar low <;> cases h2 : ds.hasVar high <;>
    simp [resolveAliases, List.find?, h1, h2]

/-- C4, code bug: a file whose six variables are all in the lowercase
adjusted spelling passes schema reconciliation, yet extraction reads the
hard-coded uppercase names, raises, and the file is rejected with zero
rows — while the identical data under uppercase names loads fine. -/
theorem c4_lowercase_file_rejected_after_reconciliation :
    (buildColumnMap dsAllLower).length = 6 ∧
    innerExtract "D123_0.nc" dsAllLower = .error () ∧
    process_profile_file "D123_0.nc" (.ok dsAllLower) = [] ∧
    process_profile_file "D123_0.nc" (.ok dsAllUpper) = [rowUpper123] := by decide

/-- C5, counterexample: the code removes every `D` and `R` from the
filename's first segment, not just the leading mode character — on
`D1R2_0.nc` the spec's parse fails while the code persists rows with
`float_id = 12`, so the table's float ids are not a subset of the
spec-parseable prefixes. -/
theorem c5_float_id_outside_spec_parse_set :
    specFloatId "D1R2_0.nc" = none ∧
    floatIdOfFilename "D1R2_0.nc" = some 12 ∧
    process_profile_file "D1R2_0.nc" (.ok dsAllUpper) = [rowUpper12] ∧
    ("float_id", CellVal.intv 12) ∈ rowUpper12 := by decide

/-- C5, amended: every persisted row's `float_id` is the integer obtained
by deleting every `D` and `R` from the filename segment before the first
underscore and parsing the remainder; a filename whose parse fails
contributes zero rows (only that file is skipped). -/
theorem c5_float_id_subset_and_per_file_skip :
    (∀ (entries : List String) (contents : String → Except Unit NCDataset)
       (row : List (String × CellVal)),
      row ∈ pipelineRows entries contents →
      ∃ f fid, f ∈ discoverFiles entries ∧ floatIdOfFilename f = some fid ∧
        ("float_id", CellVal.intv fid) ∈ row) ∧
    (∀ (f : String) (o : Except Unit NCDataset),
      floatIdOfFilename f = none → process_profile_file f o = []) := by
  constructor
  · intro entries contents row hrow
    rw [pipelineRows, List.mem_flatMap] at hrow
    obtain ⟨f, hf, hrowf⟩ := hrow
    obtain ⟨fid, pn, temp, psal, juld, lat, lon, prs, hfid, _, _, hshape⟩ :=
      mem_process_shape hrowf
    subst hshape
    exact ⟨f, fid, hf, hfid, by simp⟩
  · intro f o h
    cases o with
    | error e => rfl
    | ok ds =>
      cases hb : processBody f ds with
      | error e => simp [process_profile_file, hb]
      | ok rows =>
        have hr := processBody_ok_of_no_floatId h hb
        simp [process_profile_file, hb, hr]

theorem c5_float_id_subset_and_per_file_skip_witness :
    (rowUpper123 ∈ pipelineRows ["D123_0.nc"] (fun _ => .ok dsAllUpper) ∧
      (∃ f fid, f ∈ discoverFiles ["D123_0.nc"] ∧ floatIdOfFilename f = some fid ∧
        ("float_id", CellVal.intv fid) ∈ rowUpper123)) ∧
    (floatIdOfFilename "Dx_0.nc" = none ∧
      process_profile_file "Dx_0.nc" (.ok dsAllUpper) = []) :=
  ⟨⟨by decide,
    c5_float_id_subset_and_per_file_skip.1 ["D123_0.nc"] (fun _ => .ok dsAllUpper)
      rowUpper123 (by decide)⟩,
   ⟨by decide,
    c5_float_id_subset_and_per_file_skip.2 "Dx_0.nc" (.ok dsAllUpper) (by decide)⟩⟩

/-- C6: a depth level whose temperature or salinity is NaN is dropped,
and consequently every persisted row carries non-NaN temperature and
salinity (in particular never both null). -/
theorem c6_nan_rows_never_persisted :
    (∀ (pn : String) (ds : NCDataset) (temps psals : List FVal) (i : Nat)
       (temp psal : FVal),
      npIndex temps i = .ok temp → npIndex psals i = .ok psal →
      (temp.isNaN || psal.isNaN) = true →
      rowAt pn ds temps psals i = .ok none) ∧
    (∀ (f : String) (o : Except Unit NCDataset) (row : List (String × CellVal)),
      row ∈ process_profile_file f o →
      ∃ t s, row.lookup "temperature" = some (CellVal.fv t) ∧
        row.lookup "salinity" = some (CellVal.fv s) ∧
        t.isNaN = false ∧ s.isNaN = false ∧
        ¬(t.isNaN = true ∧ s.isNaN = true)) := by
  constructor
  · intro pn ds temps psals i temp psal ht hp hnan
    unfold rowAt
    rw [ht, hp]
    simp [hnan]
  · intro f o row h
    obtain ⟨fid, pn, temp, psal, juld, lat, lon, prs, _, htn, hpn, hshape⟩ :=
      mem_process_shape h
    subst hshape
    refine ⟨temp, psal, ?_, ?_, htn, hpn, by simp [htn]⟩
    · simp [List.lookup]
    · simp [List.lookup]

theorem c6_nan_rows_never_persisted_witness :
    rowAt "123" dsAllUpper [FVal.nan] [FVal.num 1] 0 = .ok none ∧
    (∃ t s, rowUpper123.lookup "temperature" = some (CellVal.fv t) ∧
      rowUpper123.lookup "salinity" = some (CellVal.fv s) ∧
      t.isNaN = false ∧ s.isNaN = false ∧
      ¬(t.isNaN = true ∧ s.isNaN = true)) :=
  ⟨c6_nan_rows_never_persisted.1 "123" dsAllUpper [FVal.nan] [FVal.num 1] 0
      FVal.nan (FVal.num 1) (by decide) (by decide) (by decide),
   c6_nan_rows_never_persisted.2 "D123_0.nc" (.ok dsAllUpper) rowUpper123 (by decide)⟩

/-- C7: every failure path of one file ends inside that file's handler
with zero rows (open failure or body exception), and `main`'s loop
composes per-file counts additively, so one file's fate never affects the
others. -/
theorem c7_per_file_fault_isolation :
    (∀ f : String, process_profile_file f (.error ()) = []) ∧
    (∀ (f : String) (ds : NCDataset),
      processBody f ds = .error () → process_profile_file f (.ok ds) = []) ∧
    (∀ (fs1 : List String) (f : String) (fs2 : List String)
       (contents : String → Except Unit NCDataset),
      mainTotal (fs1 ++ f :: fs2) contents =
        mainTotal fs1 contents + (process_profile_file f (contents f)).length +
          mainTotal fs2 contents) := by
  refine ⟨fun f => rfl, ?_, ?_⟩
  · intro f ds h
    simp [process_profile_file, h]
  · intro fs1 f fs2 contents
    simp only [mainTotal_eq_sum, List.map_append, List.map_cons, List.sum_append,
      List.sum_cons]
    omega

theorem c7_per_file_fault_isolation_witness :
    process_profile_file "D7_0.nc" (.error ()) = [] ∧
    (processBody "D7_0.nc" ⟨[]⟩ = .error () ∧
      process_profile_file "D7_0.nc" (.ok ⟨[]⟩) = []) ∧
    mainTotal ["D123_0.nc", "D7_0.nc"] (fun _ => .ok dsAllUpper) =
      mainTotal ["D123_0.nc"] (fun _ => .ok dsAllUpper) +
        (process_profile_file "D7_0.nc" (.ok dsAllUpper)).length +
        mainTotal [] (fun _ => .ok dsAllUpper) :=
  ⟨c7_per_file_fault_isolation.1 "D7_0.nc",
   ⟨by decide, c7_per_file_fault_isolation.2.1 "D7_0.nc" ⟨[]⟩ (by decide)⟩,
   c7_per_file_fault_isolation.2.2 ["D123_0.nc"] "D7_0.nc" [] (fun _ => .ok dsAllUpper)⟩

/-- C8: with the truncate succeeding, a run's result is independent of
the prior table state, so two successive runs on unchanged input leave
identical table content (and hence identical row count). -/
theorem c8_truncate_reload_idempotent :
    ∀ (entries : List String) (contents : String → Except Unit NCDataset)
      (table : List (List (String × CellVal))),
      pipelineRun true entries contents (pipelineRun true entries contents table) =
        pipelineRun true entries contents table := by
  intro entries contents table
  cases h : (discoverFiles entries).isEmpty <;> simp [pipelineRun, h]

/-- C9: the checker flags a file exactly under the spec's four
conditions — unreadable/unresolvable, zero rows, all temperature and
salinity null, or zero sample standard deviation of both temperature and
pressure — and every flag pairs the file's own name with the reason. -/
theorem c9_quality_flag_iff_spec_conditions :
    ∀ (fn : String) (o : Except String ArgoFrame),
      ((qcCheckFile fn o).isSome = specQcShouldFlag o) ∧
      (∀ pr, qcCheckFile fn o = some pr → pr.1 = fn) := by
  intro fn o
  constructor
  · cases o with
    | error e => rfl
    | ok df =>
      unfold qcCheckFile qcCheckBody specQcShouldFlag
      by_cases hlen : (qcColumnMap df).length ≠ 3
      · simp [hlen]
      · rcases ht : resolvedData df (qcColumnMap df) "temperature" with e1 | temps <;>
        rcases hs : resolvedData df (qcColumnMap df) "salinity" with e2 | sals <;>
        rcases hp : resolvedData df (qcColumnMap df) "pressure" with e3 | pres <;>
        cases hn : (df.nrows == 0) <;>
        first
          | (cases hA : (allNaN temps && allNaN sals) <;>
             cases hB : (stdIsZero temps && stdIsZero pres) <;>
             simp [hlen, ht, hs, hp, hn, hA, hB])
          | (cases hA : (allNaN temps && allNaN sals) <;>
             simp [hlen, ht, hs, hp, hn, hA])
          | simp [hlen, ht, hs, hp, hn]
  · intro pr h
    cases o with
    | error e =>
      have h2 : some (fn, readErrorReason e) = some pr := h
      injection h2 with h3
      rw [← h3]
    | ok df =>
      unfold qcCheckFile at h
      rcases hb : qcCheckBody df with e | reasonOpt
      · simp only [hb] at h
        injection h with h3
        rw [← h3]
      · rcases reasonOpt with _ | reason
        · simp only [hb] at h
          exact Option.noConfusion h
        · simp only [hb] at h
          injection h with h3
          rw [← h3]

theorem c9_quality_flag_iff_spec_conditions_witness :
    ((qcCheckFile "a.nc" (.ok qcFrameConst)).isSome = specQcShouldFlag (.ok qcFrameConst)) ∧
    ("a.nc", zeroStdReason).1 = "a.nc" :=
  ⟨(c9_quality_flag_iff_spec_conditions "a.nc" (.ok qcFrameConst)).1,
   (c9_quality_flag_iff_spec_conditions "a.nc" (.ok qcFrameConst)).2
     ("a.nc", zeroStdReason) (by with_unfolding_all decide)⟩

/-- C10: per file the checker emits at most one pair, and the three
quality conditions are tested in the fixed order empty-frame, all-null,
zero-standard-deviation, stopping at the first that holds. -/
theorem c10_quality_flag_priority_order :
    ∀ (fn : String) (df : ArgoFrame) (temps sals pres : List FVal),
      (qcColumnMap df).length = 3 →
      resolvedData df (qcColumnMap df) "temperature" = .ok temps →
      resolvedData df (qcColumnMap df) "salinity" = .ok sals →
      resolvedData df (qcColumnMap df) "pressure" = .ok pres →
      (∀ pr pr', qcCheckFile fn (.ok df) = some pr →
        qcCheckFile fn (.ok df) = some pr' → pr = pr') ∧
      (df.nrows = 0 → qcCheckFile fn (.ok df) = some (fn, emptyReason)) ∧
      (df.nrows ≠ 0 → (allNaN temps && allNaN sals) = true →
        qcCheckFile fn (.ok df) = some (fn, allNullReason)) ∧
      (df.nrows ≠ 0 → (allNaN temps && allNaN sals) = false →
        (stdIsZero temps && stdIsZero pres) = true →
        qcCheckFile fn (.ok df) = some (fn, zeroStdReason)) := by
  intro fn df temps sals pres hlen ht hs hp
  refine ⟨?_, ?_, ?_, ?_⟩
  · intro pr pr' h1 h2
    rw [h1] at h2
    injection h2
  · intro h0
    have hn : (df.nrows == 0) = true := by simp [h0]
    simp [qcCheckFile, qcCheckBody, hlen, hn]
  · intro h0 hA
    have hn : (df.nrows == 0) = false := by simp [h0]
    simp [qcCheckFile, qcCheckBody, hlen, hn, ht, hs, hA]
  · intro h0 hA hB
    have hn : (df.nrows == 0) = false := by simp [h0]
    simp [qcCheckFile, qcCheckBody, hlen, hn, ht, hs, hp, hA, hB]

theorem c10_quality_flag_priority_order_witness :
    allNaN ([] : List FVal) = true ∧
    qcCheckFile "a.nc" (.ok qcFrameEmpty) = some ("a.nc", emptyReason) :=
  ⟨by decide,
   (c10_quality_flag_priority_order "a.nc" qcFrameEmpty [] [] []
      (by decide) (by decide) (by decide) (by decide)).2.1 rfl⟩
